import Mathlib

/-!
Verification of the azure-naming core against its specification.

This file gives a shallow embedding, in Lean 4, of the naming-rule engine of
the repository: metadata sanitization (core/name_service.py), name building
(core/name_generator.py), name validation (core/validation.py), the claim
storage adapter (adapters/storage.py), the slug provider chain
(core/slug_service.py), the user-defaults service (utils/user_settings.py),
the layered JSON rule provider (providers/json_rules.py) and payload
normalisation (core/name_service.py).

Modelling conventions:
- Python dicts are association lists `List (k × v)`; `lookupA`, `insertA` and
  `eraseA` mirror dict lookup, assignment and deletion (assignment replaces
  in place, preserving insertion order, exactly like a Python dict).
- Python `str` is Lean `String`; `str.lower()` is `pyLower` (the ASCII case
  mapping, which agrees with Python on the ASCII inputs this code handles);
  `str.strip()` is `stripList` on the character list.
- Machine integers are `Int` / `Nat`; no overflow is possible in this code.
- Fallible Python code (raise/except) returns `Except`.
- A format template is modelled by its parsed token sequence
  (`List TemplateTok`), the same decomposition `string.Formatter.parse`
  produces; substitution with the `_SafeFormatDict` of core/naming_rules.py
  resolves a missing key to the empty string.
-/

namespace AzureNaming

/-! ### Association-list model of Python dicts -/

/-- Dict lookup: first (and in practice only) binding of the key. -/
def lookupA {κ α : Type} [DecidableEq κ] (k : κ) : List (κ × α) → Option α
  | [] => none
  | (k', v) :: rest => if k' = k then some v else lookupA k rest

/-- Dict assignment `d[k] = v`: replace the existing binding in place, or
append a new one, preserving insertion order like a Python dict. -/
def insertA {κ α : Type} [DecidableEq κ] (k : κ) (v : α) : List (κ × α) → List (κ × α)
  | [] => [(k, v)]
  | (k', v') :: rest => if k' = k then (k, v) :: rest else (k', v') :: insertA k v rest

/-- Dict deletion `del d[k]` / `d.pop(k, None)`. -/
def eraseA {κ α : Type} [DecidableEq κ] (k : κ) (l : List (κ × α)) : List (κ × α) :=
  l.filter (fun p => p.1 ≠ k)

/-! ### Characters and Python string primitives -/

/-- The single-quote character (0x27). -/
def quoteChar : Char := Char.ofNat 39

/-- The backtick character (0x60). -/
def backtickChar : Char := Char.ofNat 96

/-- ASCII lower-case letter a-z. -/
def isLowerAZ (c : Char) : Bool := 97 ≤ c.toNat && c.toNat ≤ 122

/-- ASCII upper-case letter A-Z. -/
def isUpperAZ (c : Char) : Bool := 65 ≤ c.toNat && c.toNat ≤ 90

/-- ASCII digit 0-9. -/
def isDigit09 (c : Char) : Bool := 48 ≤ c.toNat && c.toNat ≤ 57

/-- Python `str.lower()` on one character (ASCII case mapping; this program
only lower-cases ASCII identifiers, regions, environments and slugs). -/
def pyLowerChar (c : Char) : Char :=
  if h : 65 ≤ c.toNat ∧ c.toNat ≤ 90 then
    Char.ofNatAux (c.toNat + 32) (Or.inl (by omega))
  else c

/-- Python `str.lower()`. -/
def pyLower (s : String) : String := String.mk (s.data.map pyLowerChar)

/-- Python `str.startswith(pre)`. -/
def pyStartsWith (s pre : String) : Bool := pre.data.isPrefixOf s.data

/-- Python whitespace stripped by `str.strip()`: space, TAB, LF, VT, FF, CR. -/
def isPySpace (c : Char) : Bool :=
  c.toNat = 32 || c.toNat = 9 || c.toNat = 10 || c.toNat = 11 || c.toNat = 12 || c.toNat = 13

/-- Python `str.strip()` on a character list. -/
def stripList (l : List Char) : List Char :=
  ((l.dropWhile isPySpace).reverse.dropWhile isPySpace).reverse

/-- Python `str.islower()`: at least one cased character, and no cased
character is upper-case (ASCII model; generated names are ASCII). -/
def pyIsLower (s : String) : Bool :=
  s.data.any (fun c => isUpperAZ c || isLowerAZ c) && s.data.all (fun c => !isUpperAZ c)

/-! ### Metadata sanitization (core/name_service.py) -/

/-- Control characters removed from metadata keys: regex `[\x00-\x1F\x7F]`. -/
def isCtlChar (c : Char) : Bool := c.toNat < 32 || c.toNat = 127

/-- Characters the key sanitizer replaces with an underscore:
regex `['"<>|*/?\\]` plus the backtick. -/
def isUnsafeKeyChar (c : Char) : Bool :=
  c = quoteChar || c = '"' || c = backtickChar || c = '<' || c = '>' ||
  c = '|' || c = '*' || c = '/' || c = '?' || c = '\\'

/-- Control characters removed from metadata values:
regex `[\x00-\x08\x0B\x0C\x0E-\x1F\x7F]` (TAB, LF and CR are kept and
normalised separately). -/
def isValueCtlChar (c : Char) : Bool :=
  c.toNat ≤ 8 || c.toNat = 11 || c.toNat = 12 ||
  (14 ≤ c.toNat && c.toNat ≤ 31) || c.toNat = 127

/-- CR, LF or TAB: regex `[\r\n\t]`, each replaced by one space in values. -/
def isCrLfTab (c : Char) : Bool := c.toNat = 13 || c.toNat = 10 || c.toNat = 9

/-- Models `_sanitize_metadata_key` of core/name_service.py: remove control
characters, replace query-unsafe characters with an underscore, strip,
truncate, and fall back to "UnknownKey" when empty. -/
def _sanitize_metadata_key (maxLength : Nat) (key : String) : String :=
  if key = "" then "UnknownKey"
  else
    let noCtl := key.data.filter (fun c => !isCtlChar c)
    let replaced := noCtl.map (fun c => if isUnsafeKeyChar c then '_' else c)
    let stripped := stripList replaced
    let truncated := if stripped.length > maxLength then stripped.take maxLength else stripped
    if truncated.isEmpty then "UnknownKey" else String.mk truncated

/-- Models `_sanitize_metadata_value` of core/name_service.py on a string value
(non-string values are stringified first in the source; the claims concern
string values): remove control characters other than CR/LF/TAB, replace each
CR/LF/TAB with one space, truncate with a marker, and strip. -/
def _sanitize_metadata_value (maxLength : Nat) (value : String) : String :=
  let noCtl := value.data.filter (fun c => !isValueCtlChar c)
  let spaced := noCtl.map (fun c => if isCrLfTab c then ' ' else c)
  let truncated :=
    if spaced.length > maxLength then spaced.take maxLength ++ "...[truncated]".data
    else spaced
  String.mk (stripList truncated)

/-- Key sanitization at the default limit used by `_sanitize_metadata_dict`. -/
def sanitizeKey (key : String) : String := _sanitize_metadata_key 255 key

/-- Value sanitization at the default limit used by `_sanitize_metadata_dict`. -/
def sanitizeValue (value : String) : String := _sanitize_metadata_value 32767 value

/-! ### Rule model (core/naming_rules.py) -/

/-- One parsed token of a name template: literal text or a `\x7bname\x7d`
placeholder, as produced by `string.Formatter.parse`. -/
inductive TemplateTok where
  | lit (s : String)
  | ph (name : String)
deriving DecidableEq, Repr

/-- Models `DisplayField` of core/naming_rules.py (presentation data only). -/
structure DisplayField where
  key : String
  label : String
  description : Option String
  optional : Bool
deriving DecidableEq, Repr

/-- A declarative payload validator built by providers/json_rules.py,
kept as data (its construction and inheritance are what the claims test). -/
inductive ValidatorSpec where
  | allowedValues (fields : List (String × List String))
  | requiredFields (fields : List String)
  | requireAny (groups : List (String × List String))
deriving DecidableEq, Repr

/-- Models `NamingRule` of core/naming_rules.py. `summary_template` is kept as an
uninterpreted string; `name_template` is kept as its parsed token list. -/
structure NamingRule where
  segments : List String
  max_length : Int
  require_sanmar_prefix : Bool
  display_fields : List DisplayField
  validators : List ValidatorSpec
  name_template : Option (List TemplateTok)
  summary_template : Option String
deriving DecidableEq, Repr

/-! ### Name builder (core/name_generator.py) -/

/-- Models `_template_context`: the substitution context of the template path.
The dict is built with the four fixed keys, then `update`d with the
optional inputs, then extended with one `k_segment` key per optional input. -/
def _template_context (region environment slug : String)
    (optional_inputs : List (String × String)) ( require_prefix : Bool) :
    List (String × String) :=
  let base := [("region", region), ("environment", environment), ("slug", slug),
    ("sanmar_prefix", if require_prefix then "sanmar" else "")]
  let withOpts := optional_inputs.foldl (fun acc kv => insertA kv.1 kv.2 acc) base
  optional_inputs.foldl
    (fun acc kv =>
      insertA (kv.1 ++ "_segment") (if kv.2 ≠ "" then "-" ++ kv.2 else "") acc)
    withOpts

/-- Models `template.format_map(_SafeFormatDict(context))`: substitute each
placeholder by its context value, or the empty string when the key is
missing (`_SafeFormatDict.__missing__` returns `""`, so no placeholder —
registered or not — ever raises `KeyError`; the `except KeyError` branch of
`build_name` is unreachable defensive code). -/
def renderTemplate (toks : List TemplateTok) (ctx : List (String × String)) : String :=
  toks.foldl
    (fun acc t =>
      match t with
      | .lit s => acc ++ s
      | .ph n => acc ++ (lookupA n ctx).getD "")
    ""

/-- Models `rendered.strip("-")`: drop every leading and trailing hyphen. -/
def stripDashes (l : List Char) : List Char :=
  ((l.dropWhile (· = '-')).reverse.dropWhile (· = '-')).reverse

/-- Regex `re.sub(r"-\x7b2,\x7d", "-", ·)`: collapse each run of two or more
hyphens into a single hyphen. -/
def collapseDashes : List Char → List Char
  | [] => []
  | [c] => [c]
  | a :: b :: rest =>
    if a = '-' && b = '-' then collapseDashes (b :: rest)
    else a :: collapseDashes (b :: rest)

/-- Models `"-".join(parts)` on the underlying character lists. -/
def dashJoinL : List (List Char) → List Char
  | [] => []
  | [p] => p
  | p :: rest => p ++ '-' :: dashJoinL rest

/-- Models `"-".join(parts)`. -/
def dashJoin (parts : List String) : String := String.mk (dashJoinL (parts.map String.data))

/-- Models `_apply_prefix` of core/name_generator.py. -/
def _apply_prefix (name : String) (rule : NamingRule) : String :=
  if rule.require_sanmar_prefix && !(pyStartsWith name "sanmar") then "sanmar-" ++ name
  else name

/-- Models `build_name` of core/name_generator.py. The template path substitutes
into the template (missing keys become empty, see `renderTemplate`), strips
and collapses hyphens, lower-cases, and prepends the organisational prefix
when required, absent from the template and not already present. The
segment path appends the region/environment/slug literals and the matching
optional inputs in rule order, joins the non-empty parts with hyphens,
lower-cases, and applies the prefix rule. -/
def build_name (region environment slug : String) (rule : NamingRule)
    (optional_inputs : List (String × String)) : Except String String :=
  match rule.name_template with
  | some toks =>
    let ctx := _template_context region environment slug optional_inputs
      rule.require_sanmar_prefix
    let rendered := renderTemplate toks ctx
    let name := pyLower (String.mk (collapseDashes (stripDashes rendered.data)))
    if rule.require_sanmar_prefix && !(toks.contains (TemplateTok.ph "sanmar_prefix"))
        && !(pyStartsWith name "sanmar") then
      .ok ("sanmar-" ++ name)
    else
      .ok name
  | none =>
    let parts := rule.segments.filterMap
      (fun seg =>
        if seg = "region" then some region
        else if seg = "environment" then some environment
        else if seg = "slug" then some slug
        else lookupA seg optional_inputs)
    let name := pyLower (dashJoin (parts.filter (· ≠ "")))
    .ok ( _apply_prefix name rule)

/-! ### Validator (core/validation.py) -/

/-- A character allowed by the regex `[a-z0-9-]`. -/
def nameCharOk (c : Char) : Bool := isLowerAZ c || isDigit09 c || c = '-'

/-- The invalid characters listed by the character-set error: the distinct
offending characters in sorted order (Python `sorted(set(...))`). -/
def invalidCharsSorted (name : String) : List Char :=
  ((name.data.filter (fun c => !nameCharOk c)).dedup.mergeSort (fun a b => a ≤ b))

/-- Models `validate_name` of core/validation.py: length, casing and character-set
checks, in that order, each with its own error message. -/
def validate_name (name : String) (rule : NamingRule) : Except String Unit :=
  if (name.length : Int) > rule.max_length then
    let excess : Int := (name.length : Int) - rule.max_length
    .error ("Name '" ++ name ++ "' exceeds character limit. Length: " ++
      toString name.length ++ " characters, Limit: " ++ toString rule.max_length ++
      " characters, Over by: " ++ toString excess ++ " character" ++
      (if excess ≠ 1 then "s" else "") ++
      ". Please shorten the system, subsystem, project, or purpose fields.")
  else if !(pyIsLower name) then
    .error ("Name '" ++ name ++ "' must be lowercase. Found uppercase or non-alphabetic characters.")
  else if !(name ≠ "" && name.data.all nameCharOk) then
    .error ("Name '" ++ name ++ "' contains invalid characters: " ++
      String.intercalate ", " ((invalidCharsSorted name).map (fun c => String.mk [c])) ++
      ". Only lowercase letters (a-z), numbers (0-9), and hyphens (-) are allowed.")
  else
    .ok ()

/-! ### Claim storage adapter (adapters/storage.py) -/

/-- A `ClaimedNames` table entity. Timestamps and the metadata bag are not
needed by any claim and are omitted; `inUse` is the `InUse` column. -/
structure ClaimEntity where
  inUse : Bool
  resourceType : String
  claimedBy : String
deriving DecidableEq, Repr

/-- The `ClaimedNames` table, keyed by `(PartitionKey, RowKey)`. -/
abbrev ClaimTable := List ((String × String) × ClaimEntity)

/-- The partition key `f"\x7bregion.lower()\x7d-\x7benvironment.lower()\x7d"`. -/
def partitionKeyOf (region environment : String) : String :=
  pyLower region ++ "-" ++ pyLower environment

/-- Models `check_name_exists` of adapters/storage.py: true when the entity exists
and its `InUse` column is truthy (a missing entity reads as not in use). -/
def check_name_exists (tbl : ClaimTable) (region environment name : String) : Bool :=
  match lookupA (partitionKeyOf region environment, name) tbl with
  | some e => e.inUse
  | none => false

/-- The two `ResourceExistsError` outcomes `claim_name` can raise. -/
inductive ClaimError where
  | alreadyInUse (name claimedBy : String)
  | insertRaced (name : String)
deriving DecidableEq, Repr

/-- Models `claim_name` of adapters/storage.py: the pre-check rejects an entity that
exists and is in use; otherwise the code calls `table.create_entity`, which
is insert-only and raises `ResourceExistsError` whenever the row key exists
at all — including an existing entity whose `InUse` column is false. -/
def claim_name (tbl : ClaimTable) (region environment name resourceType claimedBy : String) :
    Except ClaimError ClaimTable :=
  let key := (partitionKeyOf region environment, name)
  let created : Except ClaimError ClaimTable :=
    match lookupA key tbl with
    | some _ => .error (.insertRaced name)
    | none => .ok (insertA key ⟨true, resourceType, claimedBy⟩ tbl)
  match lookupA key tbl with
  | some existing =>
    if existing.inUse then .error (.alreadyInUse name existing.claimedBy)
    else created
  | none => created

/-! ### Slug resolution chain (core/slug_service.py) -/

/-- What one provider in the chain does for the requested resource type:
return a slug string (possibly empty) or raise. -/
inductive SlugOutcome where
  | ok (slug : String)
  | raise (msg : String)
deriving DecidableEq, Repr

/-- The failure modes of `get_slug`: the re-raised last provider error, or
the generic `ValueError` when no provider raised. -/
inductive SlugErr where
  | provider (msg : String)
  | notFound (resourceType : String)
deriving DecidableEq, Repr

/-- The loop body of `get_slug`: walk the providers in order with the
remembered last error. -/
def getSlugAux (resourceType : String) :
    List SlugOutcome → Option String → Except SlugErr String
  | [], none => .error (.notFound resourceType)
  | [], some m => .error (.provider m)
  | .ok s :: rest, last => if s ≠ "" then .ok s else getSlugAux resourceType rest last
  | .raise m :: rest, _ => getSlugAux resourceType rest (some m)

/-- Models `get_slug` of core/slug_service.py, over the outcomes the registered
providers produce for this resource type. -/
def get_slug (resourceType : String) (outcomes : List SlugOutcome) : Except SlugErr String :=
  getSlugAux resourceType outcomes none

/-- An outcome the loop skips without returning: a raised error or an empty
slug (an empty slug is skipped without updating the remembered error). -/
def slugSkippable : SlugOutcome → Bool
  | .ok s => s = ""
  | .raise _ => true

/-- A successful outcome: a non-empty slug. -/
def slugHit : SlugOutcome → Bool
  | .ok s => s ≠ ""
  | .raise _ => false

/-- The error remembered after the whole chain ran, starting from `last`. -/
def lastRaiseAcc (last : Option String) (outcomes : List SlugOutcome) : Option String :=
  outcomes.foldl
    (fun acc o =>
      match o with
      | .ok _ => acc
      | .raise m => some m)
    last

/-! ### User defaults (utils/user_settings.py) -/

/-- The state of the settings repository (`InMemorySettingsRepository`):
permanent defaults per user, and session defaults with a last-seen
timestamp per (user, session). Time is in seconds. -/
structure SettingsState where
  permanent : List (String × List (String × String))
  sessions : List ((String × String) × (List (String × String) × Int))
deriving DecidableEq, Repr

/-- Models `get_permanent`. -/
def getPermanent (st : SettingsState) (userId : String) : List (String × String) :=
  (lookupA userId st.permanent).getD []

/-- Models `get_session`. -/
def getSession (st : SettingsState) (userId sessionId : String) :
    Option (List (String × String) × Int) :=
  lookupA (userId, sessionId) st.sessions

/-- Models `set_session`. -/
def setSession (st : SettingsState) (userId sessionId : String)
    (values : List (String × String)) (lastSeen : Int) : SettingsState :=
  { st with sessions := insertA (userId, sessionId) (values, lastSeen) st.sessions }

/-- Models `delete_session`. -/
def deleteSession (st : SettingsState) (userId sessionId : String) : SettingsState :=
  { st with sessions := eraseA (userId, sessionId) st.sessions }

/-- Python `dict.update`: each entry of `values` overrides `base`. -/
def dictUpdate (base values : List (String × String)) : List (String × String) :=
  values.foldl (fun acc kv => insertA kv.1 kv.2 acc) base

/-- Models `UserSettingsService.get_defaults`: fetch the permanent defaults; when a
session id is given and the session exists, evict it when `now - last_seen`
exceeds the timeout, else override the permanent values with the session
values and refresh the last-seen timestamp to `now`. Returns the resolved
defaults together with the updated repository state. -/
def get_defaults (st : SettingsState) (userId : String) (sessionId : Option String)
    (now timeout : Int) : List (String × String) × SettingsState :=
  let defaults := getPermanent st userId
  match sessionId with
  | none => (defaults, st)
  | some sid =>
    match getSession st userId sid with
    | none => (defaults, st)
    | some (values, lastSeen) =>
      if now - lastSeen > timeout then (defaults, deleteSession st userId sid)
      else (dictUpdate defaults values, setSession st userId sid values now)

/-- A Python payload value: `None` or a string (the payload fields the
claims concern are JSON strings or null). -/
inductive PyVal where
  | vNone
  | vStr (s : String)
deriving DecidableEq, Repr

/-- Models `value in (None, "")`: the blank test of `apply_defaults`. -/
def isBlankV : PyVal → Bool
  | .vNone => true
  | .vStr s => s = ""

/-- One iteration of the merge loop of `UserSettingsService.apply_defaults`:
set the default key only when it is absent from the payload built so far or
its value is `None` or the empty string. -/
def applyDefaultStep (merged : List (String × PyVal)) (kv : String × String) :
    List (String × PyVal) :=
  match lookupA kv.1 merged with
  | none => insertA kv.1 (.vStr kv.2) merged
  | some v => if isBlankV v then insertA kv.1 (.vStr kv.2) merged else merged

/-- The merge loop of `UserSettingsService.apply_defaults` over the resolved
defaults. -/
def apply_defaults (payload : List (String × PyVal)) (defaults : List (String × String)) :
    List (String × PyVal) :=
  defaults.foldl applyDefaultStep payload

/-! ### Payload normalisation (core/name_service.py) -/

/-- Python truthiness of `payload.get(field)`: false for a missing key,
`None` and the empty string. -/
def pyFalsy : Option PyVal → Bool
  | none => true
  | some .vNone => true
  | some (.vStr s) => s = ""

/-- The required fields of `_normalise_payload`. -/
def requiredFields : List String := ["resource_type", "region", "environment"]

/-- The alias step: copy `resourceType` to `resource_type` when the latter
key is absent (presence, not truthiness, is what the source tests). -/
def aliasPayload (payload : List (String × PyVal)) : List (String × PyVal) :=
  match lookupA "resourceType" payload with
  | some v =>
    match lookupA "resource_type" payload with
    | some _ => payload
    | none => insertA "resource_type" v payload
  | none => payload

/-- The required fields that are missing or blank after aliasing. -/
def computeMissing (payload : List (String × PyVal)) : List String :=
  requiredFields.filter (fun f => pyFalsy (lookupA f payload))

/-- The optional-segment extraction of `_normalise_payload`: each truthy
`system`/`subsystem`/`index` value, lower-cased. -/
def extractOptionalSegments (payload : List (String × PyVal)) : List (String × String) :=
  ["system", "subsystem", "index"].filterMap
    (fun f =>
      match lookupA f payload with
      | some (.vStr s) => if s ≠ "" then some (f, pyLower s) else none
      | _ => none)

/-- Models `_normalise_payload` of core/name_service.py: alias `resourceType`,
fail with an `InvalidRequestError` listing every missing required field,
and collect the optional segments. -/
def _normalise_payload (payload : List (String × PyVal)) :
    Except String (List (String × PyVal) × List (String × String)) :=
  let p' := aliasPayload payload
  let missing := computeMissing p'
  if missing.isEmpty then .ok (p', extractOptionalSegments p')
  else .error ("Missing required field(s): " ++ String.intercalate ", " missing)

/-! ### Layered JSON rule provider (providers/json_rules.py) -/

/-- A partial rule definition as read from one JSON document: each field is
absent or present (name templates are carried as parsed token lists). -/
structure RuleConfig where
  segments : Option (List String)
  max_length : Option Int
  require_sanmar_prefix : Option Bool
  display : Option (List DisplayField)
  validators : List ValidatorSpec
  name_template : Option (List TemplateTok)
  summary_template : Option String
deriving DecidableEq, Repr

/-- An all-absent config; concrete layers override the fields they set. -/
def emptyConfig : RuleConfig :=
  ⟨none, none, none, none, [], none, none⟩

/-- Python truthiness of the raw `default` mapping: an absent or empty
object is falsy and is skipped by `reload`. -/
def cfgTruthy (cfg : RuleConfig) : Bool := cfg ≠ emptyConfig

/-- Models `_to_rule` of providers/json_rules.py: build a rule from a partial
config, inheriting every unset field from the fallback rule. `segments`
inherits on a falsy (absent or empty) value and errors with no fallback;
`max_length` and `require_sanmar_prefix` inherit on an absent key;
`display` inherits on an absent key; an empty validator list inherits;
templates inherit on an absent key and a falsy final value becomes `none`. -/
def _to_rule (cfg : RuleConfig) (fallback : Option NamingRule) : Except String NamingRule := do
  let segments ←
    match cfg.segments with
    | some (s :: rest) => pure (s :: rest)
    | _ =>
      match fallback with
      | some f => pure f.segments
      | none => Except.error "Rule definition must provide 'segments'."
  let max_length :=
    match cfg.max_length with
    | some v => v
    | none =>
      match fallback with
      | some f => f.max_length
      | none => 80
  let require_prefix :=
    match cfg.require_sanmar_prefix with
    | some v => v
    | none =>
      match fallback with
      | some f => f.require_sanmar_prefix
      | none => false
  let display_fields :=
    match cfg.display with
    | some d => d
    | none =>
      match fallback with
      | some f => f.display_fields
      | none => []
  let validators :=
    match cfg.validators with
    | [] =>
      match fallback with
      | some f => f.validators
      | none => []
    | vs => vs
  let name_template0 :=
    match cfg.name_template with
    | some t => some t
    | none =>
      match fallback with
      | some f => f.name_template
      | none => none
  let name_template :=
    match name_template0 with
    | some [] => none
    | t => t
  let summary_template0 :=
    match cfg.summary_template with
    | some t => some t
    | none =>
      match fallback with
      | some f => f.summary_template
      | none => none
  let summary_template :=
    match summary_template0 with
    | some "" => none
    | t => t
  pure ⟨segments, max_length, require_prefix, display_fields, validators,
    name_template, summary_template⟩

/-- A parsed rule layer (`_RuleLayer`): file name, priority, enabled flag,
optional default config and per-resource overrides (keys already
lower-cased by the parser). -/
structure RuleLayer where
  filename : String
  priority : Int
  enabled : Bool
  default_config : Option RuleConfig
  resources_config : List (String × RuleConfig)
deriving DecidableEq, Repr

/-- The `(priority, filename)` ascending order of `_load_rule_layers`. -/
def layerLe (a b : RuleLayer) : Bool :=
  a.priority < b.priority || (a.priority = b.priority && a.filename ≤ b.filename)

/-- Stable insertion into a sorted layer list. -/
def insertLayer (x : RuleLayer) : List RuleLayer → List RuleLayer
  | [] => [x]
  | y :: ys => if layerLe x y then x :: y :: ys else y :: insertLayer x ys

/-- Stable sort of the layers by `(priority, filename)` ascending. -/
def sortLayers (ls : List RuleLayer) : List RuleLayer :=
  ls.foldr insertLayer []

/-- The resolved provider state: the merged default rule and the merged
per-resource rules. -/
abbrev RuleState := NamingRule × List (String × NamingRule)

/-- The layer fold of `JsonRuleProvider.reload`: each layer's truthy default
becomes the new default (inheriting from the previous default); a layer
processed while no default is available fails; each resource override is
built over the resource's prior override or else the current default. -/
def reloadGo : List RuleLayer → Option NamingRule → List (String × NamingRule) →
    Except String RuleState
  | [], some d, rr => .ok (d, rr)
  | [], none, _ => .error "At least one rule layer must define a default rule."
  | layer :: rest, d, rr => do
    let d' ←
      match layer.default_config with
      | some cfg =>
        if cfgTruthy cfg then do
          let r ← _to_rule cfg d
          pure (some r)
        else pure d
      | none => pure d
    match d' with
    | none =>
      Except.error ("Rule layer '" ++ layer.filename ++
        "' defines resources before any default rule is available.")
    | some dv => do
      let rr' ← layer.resources_config.foldlM
        (fun acc kv => do
          let base := (lookupA kv.1 acc).getD dv
          let r ← _to_rule kv.2 (some base)
          pure (insertA kv.1 r acc))
        rr
      reloadGo rest (some dv) rr'

/-- The enabled layers in `(priority, filename)` order. -/
def enabledSorted (layers : List RuleLayer) : List RuleLayer :=
  sortLayers (layers.filter (·.enabled))

/-- Models `JsonRuleProvider.reload`: discard disabled layers, sort, fail when no
layer is enabled, and fold the layers into the resolved state. -/
def reload (layers : List RuleLayer) : Except String RuleState :=
  if (enabledSorted layers).isEmpty then .error "No enabled rule layers found."
  else reloadGo (enabledSorted layers) none []

/-- Models `JsonRuleProvider.get_rule`: case-insensitive lookup; an unknown type
(and the names "default" and "__default__") resolves to the default rule. -/
def get_rule (st : RuleState) (resourceType : String) : NamingRule :=
  match lookupA (pyLower resourceType) st.2 with
  | some r => r
  | none => st.1

/-! ### Concrete instances used by the claims -/

/-- The TAB character (0x09). -/
def tabChar : Char := Char.ofNat 9

/-- A plain three-segment rule with no template, as claim C3 requires. -/
def segRule (L : Int) (pre : Bool) : NamingRule :=
  ⟨["region", "environment", "slug"], L, pre, [], [], none, none⟩

/-- A template referencing a placeholder that is never registered in the
substitution context: `\x7bregion\x7d-\x7bmystery\x7d-\x7bslug\x7d`. -/
def mysteryTemplate : List TemplateTok :=
  [.ph "region", .lit "-", .ph "mystery", .lit "-", .ph "slug"]

/-- A rule whose template contains the unregistered placeholder. -/
def mysteryRule : NamingRule := ⟨[], 80, false, [], [], some mysteryTemplate, none⟩

/-- A template using the optional-segment convention:
`\x7bregion\x7d\x7bsystem_segment\x7d-\x7bslug\x7d`. -/
def systemSegTemplate : List TemplateTok :=
  [.ph "region", .ph "system_segment", .lit "-", .ph "slug"]

/-- A rule whose template uses the `system_segment` placeholder. -/
def systemSegRule : NamingRule := ⟨[], 80, false, [], [], some systemSegTemplate, none⟩

/-- A `ClaimedNames` table holding one released record: the entity exists
but its `InUse` column is false. -/
def releasedTable : ClaimTable :=
  [(("wus2-dev", "sanmar-st-dev-wus2"), ⟨false, "storage_account", "alice"⟩)]

/-- A `ClaimedNames` table holding one record that is in use. -/
def inUseTable : ClaimTable :=
  [(("wus2-dev", "sanmar-st-dev-wus2"), ⟨true, "storage_account", "alice"⟩)]

/-- Layer A of the claim C7 scenario: priority 0, enabled, default rule
with `max_length` 64. -/
def layerA : RuleLayer :=
  ⟨"a.json", 0, true,
    some { emptyConfig with segments := some ["slug", "environment", "region"], max_length := some 64 },
    []⟩

/-- Layer B of the claim C7 scenario: priority 10, enabled, overriding
`storage_account.max_length` to 30. -/
def layerB : RuleLayer :=
  ⟨"b.json", 10, true, none,
    [("storage_account", { emptyConfig with max_length := some 30 })]⟩

/-- A disabled layer that would override `storage_account.max_length`
to 99 if it were enabled. -/
def layerC : RuleLayer :=
  ⟨"c.json", 5, false, none,
    [("storage_account", { emptyConfig with max_length := some 99 })]⟩

/-- The default rule the C7 scenario merges to. -/
def mergedDefault : NamingRule :=
  ⟨["slug", "environment", "region"], 64, false, [], [], none, none⟩

/-- The `storage_account` rule the C7 scenario merges to: layer B's
`max_length` over layer A's default. -/
def mergedStorage : NamingRule :=
  ⟨["slug", "environment", "region"], 30, false, [], [], none, none⟩

/-- The resolved provider state of the C7 scenario. -/
def mergedState : RuleState := (mergedDefault, [("storage_account", mergedStorage)])

/-- A layer with resource overrides but no default rule. -/
def noDefaultLayer : RuleLayer :=
  ⟨"bad.json", 0, true, none, [("x", { emptyConfig with max_length := some 30 })]⟩

/-- A layer's default config exists and is truthy (a non-empty mapping). -/
def truthyDefaultOf (l : RuleLayer) : Prop :=
  ∃ cfg, l.default_config = some cfg ∧ cfgTruthy cfg = true

/-- A settings repository holding one session for user "user": session "s1"
set the default `environment=qa` at time 0; no permanent defaults. -/
def sessionState0 : SettingsState :=
  ⟨[], [(("user", "s1"), ([("environment", "qa")], 0))]⟩

/-! ### Helper lemmas -/

theorem toNat_ofNatAux (n : Nat) (h : n.isValidChar) : (Char.ofNatAux n h).toNat = n := by
  simp [Char.ofNatAux, Char.toNat, UInt32.toNat, BitVec.toNat_ofNatLt]

theorem pyLowerChar_eq_self {c : Char} (h : ¬(65 ≤ c.toNat ∧ c.toNat ≤ 90)) :
    pyLowerChar c = c := dif_neg h

theorem pyLowerChar_not_upper (c : Char) :
    ¬(65 ≤ (pyLowerChar c).toNat ∧ (pyLowerChar c).toNat ≤ 90) := by
  unfold pyLowerChar
  split
  · next h => rw [toNat_ofNatAux]; omega
  · next h => exact h

theorem pyLowerChar_idem (c : Char) : pyLowerChar (pyLowerChar c) = pyLowerChar c :=
  pyLowerChar_eq_self (pyLowerChar_not_upper c)

theorem pyLower_data (s : String) : (pyLower s).data = s.data.map pyLowerChar := rfl

theorem pyLower_idem (s : String) : pyLower (pyLower s) = pyLower s := by
  show String.mk ((s.data.map pyLowerChar).map pyLowerChar) = String.mk (s.data.map pyLowerChar)
  rw [List.map_map]
  exact congrArg String.mk
    (List.map_congr_left (fun c _ => by simp only [Function.comp_apply, pyLowerChar_idem]))

theorem string_mk_append (a b : List Char) : String.mk (a ++ b) = String.mk a ++ String.mk b := rfl

theorem pyLower_append (a b : String) : pyLower (a ++ b) = pyLower a ++ pyLower b := by
  unfold pyLower
  rw [String.data_append, List.map_append, string_mk_append]

theorem pyLower_sanmar_dash : pyLower "sanmar-" = "sanmar-" := by decide

theorem lookupA_insertA_self {κ α : Type} [DecidableEq κ] (k : κ) (v : α) (l : List (κ × α)) :
    lookupA k (insertA k v l) = some v := by
  induction l with
  | nil => simp [insertA, lookupA]
  | cons p rest ih =>
    obtain ⟨k', v'⟩ := p
    by_cases h : k' = k
    · simp [insertA, lookupA, h]
    · simp [insertA, lookupA, h, ih]

theorem lookupA_insertA_ne {κ α : Type} [DecidableEq κ] {k k0 : κ} (v0 : α) (l : List (κ × α))
    (h : k0 ≠ k) : lookupA k (insertA k0 v0 l) = lookupA k l := by
  induction l with
  | nil => simp [insertA, lookupA, h]
  | cons p rest ih =>
    obtain ⟨k', v'⟩ := p
    by_cases hk : k' = k0
    · subst hk
      simp [insertA, lookupA, h, ih]
    · have h' : ¬ (k = k0) := fun hh => h hh.symm
      by_cases h2 : k' = k
      · simp [insertA, lookupA, hk, h2, h']
      · simp [insertA, lookupA, hk, h2, ih]

theorem lookupA_eraseA_self {κ α : Type} [DecidableEq κ] (k : κ) (l : List (κ × α)) :
    lookupA k (eraseA k l) = none := by
  induction l with
  | nil => rfl
  | cons p rest ih =>
    obtain ⟨k', v'⟩ := p
    by_cases h : k' = k
    · subst h
      simp only [eraseA, List.filter_cons]
      rw [if_neg (by simp)]
      exact ih
    · simp only [eraseA, List.filter_cons]
      rw [if_pos (by simp [h])]
      simp only [lookupA, if_neg h]
      exact ih

/-! ### Claim C4 -/

/-- Claim C4 (code bug): the claim says persistence fails with a conflict
if and only if the record is in use, so claiming a name whose record exists
but is released must succeed. In the code the pre-check lets the released
record through, but `create_entity` is insert-only and raises
`ResourceExistsError` because the row still exists, so the claim is
rejected. The theorem evaluates the adapter on a released record (the
claim fails with the raced-insert conflict), on a fresh name (the claim
succeeds) and on an in-use record (the claim fails with the in-use
conflict). -/
theorem C4_released_record_still_conflicts :
    check_name_exists releasedTable "wus2" "dev" "sanmar-st-dev-wus2" = false
    ∧ claim_name releasedTable "wus2" "dev" "sanmar-st-dev-wus2" "storage_account" "bob"
      = .error (.insertRaced "sanmar-st-dev-wus2")
    ∧ claim_name ([] : ClaimTable) "wus2" "dev" "sanmar-st-dev-wus2" "storage_account" "bob"
      = .ok [(("wus2-dev", "sanmar-st-dev-wus2"), ⟨true, "storage_account", "bob"⟩)]
    ∧ claim_name inUseTable "wus2" "dev" "sanmar-st-dev-wus2" "storage_account" "bob"
      = .error (.alreadyInUse "sanmar-st-dev-wus2" "alice") :=
  ⟨rfl, rfl, rfl, rfl⟩

/-! ### Claim C2 -/

/-- Claim C2 counterexample: a placeholder that was never registered in the
substitution context does not make `build_name` fail; substitution with the
`_SafeFormatDict` renders it as the empty string and `build_name` returns a
name. -/
theorem C2_counterexample :
    build_name "wus2" "dev" "st" mysteryRule [] = .ok "wus2-st" := rfl

/-- Claim C2 (amended): in the template path every placeholder missing from
the substitution context — whether registered as an optional input or not —
resolves to the empty string, and `build_name` never fails: the
`KeyError`-to-invalid-rule branch is unreachable because `_SafeFormatDict`
returns the empty string for every missing key. -/
theorem C2_missing_placeholders_resolve_empty :
    (∀ (region environment slug : String) (rule : NamingRule)
        (opts : List (String × String)),
      ∃ n, build_name region environment slug rule opts = .ok n)
    ∧ build_name "wus2" "dev" "st" systemSegRule [("system", "")] = .ok "wus2-st"
    ∧ build_name "wus2" "dev" "st" systemSegRule [("system", "erp")] = .ok "wus2-erp-st"
    ∧ build_name "wus2" "dev" "st" mysteryRule [] = .ok "wus2-st" := by
  refine ⟨fun region environment slug rule opts => ?_, rfl, rfl, rfl⟩
  match h : rule.name_template with
  | some toks =>
    simp only [build_name, h]
    split
    · exact ⟨_, rfl⟩
    · exact ⟨_, rfl⟩
  | none =>
    simp only [build_name, h]
    exact ⟨_, rfl⟩

/-- Claim C2 witness: the template path produces a name for arbitrary
concrete inputs. -/
theorem C2_missing_placeholders_resolve_empty_witness :
    ∃ n, build_name "wus2" "dev" "st" mysteryRule [] = .ok n :=
  C2_missing_placeholders_resolve_empty.1 "wus2" "dev" "st" mysteryRule []

/-! ### Claim C7 -/

/-- Claim C7: the layered provider excludes disabled layers, sorts enabled
layers by (priority, filename) ascending, and folds them with
higher-priority overrides inheriting unset fields; the concrete scenario
(layer A at priority 0 with default max_length 64, layer B at priority 10
overriding storage_account.max_length to 30, plus a disabled layer given
out of order) resolves storage_account to max_length 30 with inherited
segments, and an unknown type resolves to the default rule; moreover any
layer with resource overrides processed while no layer up to it supplied a
truthy default makes initialization fail. -/
theorem C7_layered_provider :
    reload [layerB, layerC, layerA] = .ok mergedState
    ∧ (get_rule mergedState "storage_account").max_length = 30
    ∧ (get_rule mergedState "storage_account").segments = mergedDefault.segments
    ∧ get_rule mergedState "unknown_type" = mergedState.1
    ∧ get_rule mergedState "default" = mergedState.1
    ∧ ∀ (layers : List RuleLayer) (i : Nat) (L : RuleLayer),
        (enabledSorted layers)[i]? = some L →
        L.resources_config ≠ [] →
        (∀ j M, j ≤ i → (enabledSorted layers)[j]? = some M → ¬ truthyDefaultOf M) →
        ∃ msg, reload layers = .error msg := by
  refine ⟨rfl, rfl, rfl, rfl, rfl,
    fun layers i L hL _hres hnone => ?_⟩
  rcases hs : enabledSorted layers with _ | ⟨e, es⟩
  · rw [hs] at hL; simp at hL
  · have he0 : (enabledSorted layers)[0]? = some e := by rw [hs]; simp
    have hnd : ¬ truthyDefaultOf e := hnone 0 e (Nat.zero_le i) he0
    have hne : (enabledSorted layers).isEmpty = false := by rw [hs]; rfl
    refine ⟨"Rule layer '" ++ e.filename ++
      "' defines resources before any default rule is available.", ?_⟩
    unfold reload
    rw [hne]
    simp only [Bool.false_eq_true, if_false]
    rw [hs]
    simp only [reloadGo]
    rcases hd : e.default_config with _ | cfg
    · rfl
    · have hcf : cfgTruthy cfg = false := by
        rcases Bool.eq_false_or_eq_true (cfgTruthy cfg) with h | h
        · exact absurd ⟨cfg, hd, h⟩ hnd
        · exact h
      simp [hcf]

/-- Claim C7 witness: a single enabled layer with resource overrides and no
default rule makes initialization fail. -/
theorem C7_layered_provider_witness :
    ∃ msg, reload [noDefaultLayer] = .error msg :=
  C7_layered_provider.2.2.2.2.2 [noDefaultLayer] 0 noDefaultLayer rfl
    (by decide)
    (fun j M _ hj => by
      interval_cases j
      · intro ht
        obtain ⟨cfg, hcfg, _⟩ := ht
        have hM : M = noDefaultLayer := by
          have h0 : (enabledSorted [noDefaultLayer])[0]? = some noDefaultLayer := rfl
          rw [h0] at hj
          exact (Option.some_inj.mp hj).symm
        rw [hM] at hcfg
        simp [noDefaultLayer] at hcfg)

/-! ### Claim C5 -/

theorem getSlugAux_skips (rt s : String) (rest : List SlugOutcome) (hs : s ≠ "") :
    ∀ (pre : List SlugOutcome) (last : Option String),
      (∀ o ∈ pre, slugSkippable o = true) →
      getSlugAux rt (pre ++ .ok s :: rest) last = .ok s := by
  intro pre
  induction pre with
  | nil =>
    intro last _
    simp only [List.nil_append, getSlugAux]
    rw [if_pos hs]
  | cons o os ih =>
    intro last hsk
    have ho := hsk o (List.mem_cons_self o os)
    have htail := fun o' ho' => hsk o' (List.mem_cons_of_mem _ ho')
    cases o with
    | ok t =>
      have ht : t = "" := by simpa [slugSkippable] using ho
      subst ht
      simp only [List.cons_append, getSlugAux]
      rw [if_neg (fun h => h rfl)]
      exact ih last htail
    | raise m =>
      simp only [List.cons_append, getSlugAux]
      exact ih (some m) htail

theorem getSlugAux_misses (rt : String) :
    ∀ (outs : List SlugOutcome) (last : Option String),
      (∀ o ∈ outs, slugHit o = false) →
      getSlugAux rt outs last =
        (match lastRaiseAcc last outs with
         | some m => .error (.provider m)
         | none => .error (.notFound rt)) := by
  intro outs
  induction outs with
  | nil =>
    intro last _
    cases last <;> rfl
  | cons o os ih =>
    intro last hm
    have ho := hm o (List.mem_cons_self o os)
    have htail := fun o' ho' => hm o' (List.mem_cons_of_mem _ ho')
    cases o with
    | ok t =>
      have ht : t = "" := by simpa [slugHit] using ho
      subst ht
      simp only [getSlugAux]
      rw [if_neg (fun h => h rfl)]
      exact ih last htail
    | raise m =>
      simp only [getSlugAux]
      exact ih (some m) htail

/-- Claim C5: slug resolution tries the providers strictly in order and
returns the first non-empty slug (earlier providers may have raised or
returned an empty slug); when no provider succeeds, the last-seen provider
error is re-raised, and the generic not-found error is raised only when no
provider raised at all. -/
theorem C5_slug_chain_order :
    (∀ (rt s : String) (pre rest : List SlugOutcome),
      (∀ o ∈ pre, slugSkippable o = true) → s ≠ "" →
      get_slug rt (pre ++ .ok s :: rest) = .ok s)
    ∧ (∀ (rt m : String) (outs : List SlugOutcome),
      (∀ o ∈ outs, slugHit o = false) → lastRaiseAcc none outs = some m →
      get_slug rt outs = .error (.provider m))
    ∧ (∀ (rt : String) (outs : List SlugOutcome),
      (∀ o ∈ outs, slugHit o = false) → lastRaiseAcc none outs = none →
      get_slug rt outs = .error (.notFound rt)) := by
  refine ⟨?_, ?_, ?_⟩
  · intro rt s pre rest hsk hs
    exact getSlugAux_skips rt s rest hs pre none hsk
  · intro rt m outs hm hl
    unfold get_slug
    rw [getSlugAux_misses rt outs none hm, hl]
  · intro rt outs hm hl
    unfold get_slug
    rw [getSlugAux_misses rt outs none hm, hl]

/-- Claim C5 witness: a chain whose first provider raises and whose second
returns an empty slug resolves to the third provider's slug; an all-failing
chain re-raises the last error; a chain of empty slugs with no errors
raises the generic not-found error. -/
theorem C5_slug_chain_order_witness :
    get_slug "storage_account" [.raise "table down", .ok "", .ok "st", .ok "app"] = .ok "st"
    ∧ get_slug "storage_account" [.raise "a", .ok "", .raise "b"] = .error (.provider "b")
    ∧ get_slug "storage_account" [.ok "", .ok ""] = .error (.notFound "storage_account") :=
  ⟨C5_slug_chain_order.1 "storage_account" "st" [.raise "table down", .ok ""] [.ok "app"]
      (by decide) (by decide),
    C5_slug_chain_order.2.1 "storage_account" "b" [.raise "a", .ok "", .raise "b"]
      (by decide) (by decide),
    C5_slug_chain_order.2.2 "storage_account" [.ok "", .ok ""] (by decide) (by decide)⟩

/-! ### Claim C6 -/

/-- Claim C6: when the stored session's last-seen timestamp is older than
the inactivity timeout relative to now, `get_defaults` deletes the session
from the repository and the session contributes nothing to the result;
otherwise the session values override the permanent defaults and the
session's last-seen timestamp is refreshed to now. -/
theorem C6_session_expiry :
    ∀ (st : SettingsState) (userId sessionId : String) (now timeout : Int)
      (values : List (String × String)) (lastSeen : Int),
      getSession st userId sessionId = some (values, lastSeen) →
      ((now - lastSeen > timeout →
        get_defaults st userId (some sessionId) now timeout
          = (getPermanent st userId, deleteSession st userId sessionId)
        ∧ getSession (get_defaults st userId (some sessionId) now timeout).2 userId sessionId
          = none)
       ∧ (¬(now - lastSeen > timeout) →
        get_defaults st userId (some sessionId) now timeout
          = (dictUpdate (getPermanent st userId) values,
             setSession st userId sessionId values now)
        ∧ getSession (get_defaults st userId (some sessionId) now timeout).2 userId sessionId
          = some (values, now))) := by
  intro st u sid now timeout values lastSeen hsess
  have hgd : get_defaults st u (some sid) now timeout
      = if now - lastSeen > timeout then (getPermanent st u, deleteSession st u sid)
        else (dictUpdate (getPermanent st u) values, setSession st u sid values now) := by
    unfold get_defaults
    dsimp only
    rw [hsess]
  constructor
  · intro hexp
    rw [hgd, if_pos hexp]
    exact ⟨rfl, lookupA_eraseA_self _ _⟩
  · intro hfresh
    rw [hgd, if_neg hfresh]
    exact ⟨rfl, lookupA_insertA_self _ _ _⟩

/-- Claim C6 witness: a session default set at time 0 with a one-hour
timeout is evicted by a query at time 3601: the repository entry is deleted
and the `environment` key is absent from the resolved defaults. -/
theorem C6_session_expiry_witness :
    get_defaults sessionState0 "user" (some "s1") 3601 3600
      = (getPermanent sessionState0 "user", deleteSession sessionState0 "user" "s1")
    ∧ getSession (get_defaults sessionState0 "user" (some "s1") 3601 3600).2 "user" "s1" = none
    ∧ lookupA "environment" (get_defaults sessionState0 "user" (some "s1") 3601 3600).1 = none := by
  have h := (C6_session_expiry sessionState0 "user" "s1" 3601 3600
    [("environment", "qa")] 0 rfl).1 (by decide)
  exact ⟨h.1, h.2, by rw [h.1]; rfl⟩

/-! ### Claim C8 -/

/-- Claim C8: when any of `resource_type`, `region`, `environment` is
absent or blank after alias normalisation, the payload pipeline fails with
an invalid-request error whose message lists every missing required field,
not just the first one. -/
theorem C8_missing_fields_listed :
    ∀ payload : List (String × PyVal),
      computeMissing (aliasPayload payload) ≠ [] →
      _normalise_payload payload
        = .error ("Missing required field(s): "
            ++ String.intercalate ", " (computeMissing (aliasPayload payload)))
      ∧ ∀ f ∈ requiredFields, pyFalsy (lookupA f (aliasPayload payload)) = true →
          f ∈ computeMissing (aliasPayload payload) := by
  intro payload hne
  constructor
  · simp only [_normalise_payload]
    rw [if_neg (fun h => hne (by simpa [List.isEmpty_iff] using h))]
  · intro f hf hfal
    exact List.mem_filter.mpr ⟨hf, hfal⟩

/-- Claim C8 witness: a payload carrying only a region is rejected with a
message listing both `resource_type` and `environment`. -/
theorem C8_missing_fields_listed_witness :
    _normalise_payload [("region", PyVal.vStr "wus2")]
      = .error "Missing required field(s): resource_type, environment"
    ∧ "environment" ∈ computeMissing (aliasPayload [("region", PyVal.vStr "wus2")]) := by
  have h := C8_missing_fields_listed [("region", PyVal.vStr "wus2")] (by decide)
  exact ⟨h.1.trans (by rfl), h.2 "environment" (by decide) (by decide)⟩

/-! ### Claim C9 -/

theorem pyFalsy_some (v : PyVal) : pyFalsy (some v) = isBlankV v := by
  cases v <;> rfl

theorem applyDefaultStep_lookup_ne (payload : List (String × PyVal)) (kv : String × String)
    {k : String} (hk : kv.1 ≠ k) :
    lookupA k (applyDefaultStep payload kv) = lookupA k payload := by
  unfold applyDefaultStep
  rcases hl : lookupA kv.1 payload with _ | w
  · exact lookupA_insertA_ne _ _ hk
  · dsimp only
    by_cases hb : isBlankV w = true
    · rw [hb]
      simp only [if_true]
      exact lookupA_insertA_ne _ _ hk
    · rw [Bool.not_eq_true] at hb
      rw [hb]
      simp

theorem applyDefaultStep_of_nonblank (payload : List (String × PyVal)) (kv : String × String)
    (v : PyVal) (hv : lookupA kv.1 payload = some v) (hnb : isBlankV v = false) :
    applyDefaultStep payload kv = payload := by
  unfold applyDefaultStep
  rw [hv]
  dsimp only
  rw [hnb]
  simp

theorem apply_defaults_lookup (defaults : List (String × String)) :
    ∀ (payload : List (String × PyVal)) (k : String),
      ((∀ v, lookupA k payload = some v → isBlankV v = false →
        lookupA k (apply_defaults payload defaults) = some v)
       ∧ (lookupA k (apply_defaults payload defaults) ≠ lookupA k payload →
        pyFalsy (lookupA k payload) = true)) := by
  induction defaults with
  | nil =>
    intro payload k
    exact ⟨fun v hv _ => hv, fun h => absurd rfl h⟩
  | cons kv ds ih =>
    intro payload k
    have hcons : apply_defaults payload (kv :: ds)
        = apply_defaults (applyDefaultStep payload kv) ds := rfl
    constructor
    · intro v hv hnb
      by_cases hk : kv.1 = k
      · subst hk
        rw [hcons, applyDefaultStep_of_nonblank payload kv v hv hnb]
        exact (ih payload kv.1).1 v hv hnb
      · rw [hcons]
        exact (ih _ k).1 v
          ((applyDefaultStep_lookup_ne payload kv hk).trans hv) hnb
    · intro hch
      by_cases hk : kv.1 = k
      · subst hk
        rcases hl : lookupA kv.1 payload with _ | w
        · rfl
        · by_cases hb : isBlankV w = true
          · rw [pyFalsy_some]; exact hb
          · rw [Bool.not_eq_true] at hb
            rw [hcons, applyDefaultStep_of_nonblank payload kv w hl hb] at hch
            rw [← hl]
            exact (ih payload kv.1).2 hch
      · rw [hcons] at hch
        have hstep := applyDefaultStep_lookup_ne payload kv hk
        have hch' : lookupA k (apply_defaults (applyDefaultStep payload kv) ds)
            ≠ lookupA k (applyDefaultStep payload kv) := by
          rw [hstep]; exact hch
        have h2 := (ih (applyDefaultStep payload kv) k).2 hch'
        rw [hstep] at h2
        exact h2

/-- Claim C9: `apply_defaults` sets a key from the resolved defaults only
when the key is absent from the payload or its payload value is `None` or
empty; every key present in the payload with a non-blank value keeps
exactly its original value in the merged result. -/
theorem C9_apply_defaults_frame :
    ∀ (payload : List (String × PyVal)) (defaults : List (String × String)) (k : String),
      ((∀ v, lookupA k payload = some v → isBlankV v = false →
        lookupA k (apply_defaults payload defaults) = some v)
       ∧ (lookupA k (apply_defaults payload defaults) ≠ lookupA k payload →
        pyFalsy (lookupA k payload) = true)) :=
  fun payload defaults k => apply_defaults_lookup defaults payload k

/-- Claim C9 witness: a non-blank `region` survives the merge unchanged
even when the defaults carry a different region value. -/
theorem C9_apply_defaults_frame_witness :
    lookupA "region" (apply_defaults [("region", PyVal.vStr "wus2")]
      [("region", "eus"), ("environment", "dev")]) = some (PyVal.vStr "wus2") :=
  (C9_apply_defaults_frame [("region", PyVal.vStr "wus2")]
    [("region", "eus"), ("environment", "dev")] "region").1
    (PyVal.vStr "wus2") (by decide) (by decide)

/-! ### Claim C10 -/

/-- Claim C10: every name `build_name` produces equals its own lowering —
on the template path and the segment path, including any auto-prepended
organisational prefix. -/
theorem C10_built_names_lowercase :
    ∀ (region environment slug : String) (rule : NamingRule)
      (opts : List (String × String)) (n : String),
      build_name region environment slug rule opts = .ok n → pyLower n = n := by
  intro region environment slug rule opts n h
  match ht : rule.name_template with
  | some toks =>
    simp only [build_name, ht] at h
    split at h
    · injection h with h2
      subst h2
      rw [pyLower_append, pyLower_sanmar_dash, pyLower_idem]
    · injection h with h2
      subst h2
      rw [pyLower_idem]
  | none =>
    simp only [build_name, ht] at h
    injection h with h2
    subst h2
    unfold _apply_prefix
    split
    · rw [pyLower_append, pyLower_sanmar_dash, pyLower_idem]
    · rw [pyLower_idem]

/-- Claim C10 witness: the segment-path name for (wus2, dev, st) is its own
lowering. -/
theorem C10_built_names_lowercase_witness :
    pyLower "wus2-dev-st" = "wus2-dev-st" :=
  C10_built_names_lowercase "wus2" "dev" "st" (segRule 80 false) [] "wus2-dev-st" rfl

/-! ### Claim C1 -/

theorem mem_of_mem_dropWhileA {α : Type} (p : α → Bool) :
    ∀ (l : List α) (c : α), c ∈ l.dropWhile p → c ∈ l := by
  intro l
  induction l with
  | nil => intro c h; exact h
  | cons a rest ih =>
    intro c h
    rw [List.dropWhile_cons] at h
    by_cases hp : p a = true
    · rw [if_pos hp] at h
      exact List.mem_cons_of_mem a (ih c h)
    · rw [if_neg hp] at h
      exact h

theorem mem_of_mem_stripList (l : List Char) (c : Char) (h : c ∈ stripList l) : c ∈ l := by
  unfold stripList at h
  rw [List.mem_reverse] at h
  have h2 := mem_of_mem_dropWhileA isPySpace _ c h
  rw [List.mem_reverse] at h2
  exact mem_of_mem_dropWhileA isPySpace l c h2

theorem mem_of_mem_takeA {α : Type} : ∀ (n : Nat) (l : List α) (c : α), c ∈ l.take n → c ∈ l := by
  intro n
  induction n with
  | zero => intro l c h; simp [List.take] at h
  | succ m ih =>
    intro l c h
    cases l with
    | nil => simp at h
    | cons a rest =>
      rw [List.take_succ_cons] at h
      rcases List.mem_cons.mp h with h1 | h1
      · rw [h1]; exact List.mem_cons_self a rest
      · exact List.mem_cons_of_mem a (ih rest c h1)

/-- Claim C1 counterexample: a metadata value containing a single quote and
a tab character is stored with the tab collapsed to a space but the quote
retained: `_sanitize_metadata_value` never replaces query-unsafe characters
with an underscore (only the key sanitizer does). -/
theorem C1_counterexample :
    sanitizeValue (String.mk ['a', quoteChar, tabChar, 'b']) = String.mk ['a', quoteChar, ' ', 'b']
    ∧ quoteChar ∈ (sanitizeValue (String.mk ['a', quoteChar, tabChar, 'b'])).data :=
  ⟨by decide, by decide⟩

/-- Claim C1 (amended): key sanitization strips control characters, replaces
storage-query-unsafe characters (quotes, backticks, angle brackets, pipes,
wildcards, slashes, backslashes) with an underscore, trims and truncates;
value sanitization strips control characters (mapping each CR/LF/TAB to a
single space) and trims, but does not replace query-unsafe characters: a
value containing a single quote and a tab is stored with the tab collapsed
to a space and the quote retained. -/
theorem C1_sanitization :
    (∀ (s : String) (c : Char), c ∈ (sanitizeValue s).data → 32 ≤ c.toNat ∧ c.toNat ≠ 127)
    ∧ (∀ (k : String) (c : Char), c ∈ (sanitizeKey k).data → isUnsafeKeyChar c = false)
    ∧ sanitizeKey (String.mk
        ['a', quoteChar, 'b', '"', 'c', '<', 'd', '>', 'e', '|', 'f', '*', 'g', '\\', 'h'])
      = "a_b_c_d_e_f_g_h"
    ∧ sanitizeValue (String.mk ['a', quoteChar, tabChar, 'b'])
      = String.mk ['a', quoteChar, ' ', 'b'] := by
  refine ⟨?_, ?_, by decide, by decide⟩
  · intro s c h
    unfold sanitizeValue _sanitize_metadata_value at h
    dsimp only at h
    have h1 := mem_of_mem_stripList _ _ h
    have hspaced : c ∈ (s.data.filter (fun c => !isValueCtlChar c)).map
        (fun c => if isCrLfTab c then ' ' else c) → 32 ≤ c.toNat ∧ c.toNat ≠ 127 := by
      intro hm
      obtain ⟨a, ha, hac⟩ := List.mem_map.mp hm
      have haf : (!isValueCtlChar a) = true := (List.mem_filter.mp ha).2
      by_cases hcr : isCrLfTab a = true
      · rw [if_pos hcr] at hac
        rw [← hac]
        decide
      · rw [if_neg hcr] at hac
        rw [← hac]
        simp [isValueCtlChar, isCrLfTab] at haf hcr
        omega
    split at h1
    · rcases List.mem_append.mp h1 with h2 | h2
      · exact hspaced (mem_of_mem_takeA _ _ _ h2)
      · have hmark : ∀ c ∈ "...[truncated]".data, 32 ≤ c.toNat ∧ c.toNat ≠ 127 := by decide
        exact hmark c h2
    · exact hspaced h1
  · intro k c h
    unfold sanitizeKey _sanitize_metadata_key at h
    by_cases h0 : k = ""
    · rw [if_pos h0] at h
      have hu : ∀ c ∈ "UnknownKey".data, isUnsafeKeyChar c = false := by decide
      exact hu c h
    · rw [if_neg h0] at h
      dsimp only at h
      have hrepl : c ∈ (k.data.filter (fun c => !isCtlChar c)).map
          (fun c => if isUnsafeKeyChar c then '_' else c) → isUnsafeKeyChar c = false := by
        intro hm
        obtain ⟨a, _, hac⟩ := List.mem_map.mp hm
        by_cases hun : isUnsafeKeyChar a = true
        · rw [if_pos hun] at hac
          rw [← hac]
          decide
        · rw [if_neg hun] at hac
          rw [← hac]
          simpa using hun
      have hu : ∀ d ∈ "UnknownKey".data, isUnsafeKeyChar d = false := by decide
      split at h
      · split at h
        · exact hu c h
        · exact hrepl (mem_of_mem_stripList _ _ (mem_of_mem_takeA _ _ _ h))
      · split at h
        · exact hu c h
        · exact hrepl (mem_of_mem_stripList _ _ h)

/-- Claim C1 witness: the sanitized value "x" consists of non-control
characters and the sanitized key "x" contains no query-unsafe character. -/
theorem C1_sanitization_witness :
    (32 ≤ ('x' : Char).toNat ∧ ('x' : Char).toNat ≠ 127)
    ∧ isUnsafeKeyChar 'x' = false :=
  ⟨C1_sanitization.1 "x" 'x' (by decide), C1_sanitization.2.1 "x" 'x' (by decide)⟩

/-! ### Claim C3 -/

theorem string_length_data (s : String) : s.length = s.data.length := rfl

theorem string_ne_empty_data {s : String} (h : s ≠ "") : s.data ≠ [] := by
  intro hd
  apply h
  cases s with
  | mk d =>
    simp only at hd
    rw [hd]

theorem pyLowerChar_of_nameChar {c : Char} (h : nameCharOk c = true) : pyLowerChar c = c := by
  apply pyLowerChar_eq_self
  by_cases hd : c = '-'
  · subst hd; decide
  · simp [nameCharOk, isLowerAZ, isDigit09, hd] at h
    omega

theorem nameCharOk_not_upper {c : Char} (h : nameCharOk c = true) : isUpperAZ c = false := by
  by_cases hd : c = '-'
  · subst hd; decide
  · simp [nameCharOk, isLowerAZ, isDigit09, hd] at h
    simp only [isUpperAZ, Bool.and_eq_false_iff, decide_eq_false_iff_not]
    omega

theorem dashJoin_three_length (region environment slug : String) :
    (region.data ++ '-' :: (environment.data ++ '-' :: slug.data)).length
    = region.length + environment.length + slug.length + 2 := by
  rw [List.length_append, List.length_cons, List.length_append, List.length_cons]
  rw [string_length_data region, string_length_data environment, string_length_data slug]
  omega

/-- Claim C3 counterexample: region "1", environment "2" and slug "3" are
made only of characters the validator's own character policy `[a-z0-9-]`
allows, the rule has no template, and max_length 80 comfortably exceeds the
name, yet validation fails: Python `str.islower()` is false on a string
with no cased character, so the casing check rejects the all-digit name. -/
theorem C3_counterexample :
    build_name "1" "2" "3" (segRule 80 false) [] = .ok "1-2-3"
    ∧ validate_name "1-2-3" (segRule 80 false)
      = .error "Name '1-2-3' must be lowercase. Found uppercase or non-alphabetic characters." :=
  ⟨rfl, rfl⟩

theorem validate_name_ok (name : String) (rule : NamingRule)
    (h1 : (name.length : Int) ≤ rule.max_length)
    (h2 : pyIsLower name = true)
    (h3 : name ≠ "")
    (h4 : name.data.all nameCharOk = true) :
    validate_name name rule = .ok () := by
  unfold validate_name
  rw [if_neg (show ¬((name.length : Int) > rule.max_length) by omega)]
  have hb2 : (!pyIsLower name) = false := by rw [h2]; rfl
  rw [hb2, if_neg Bool.false_ne_true]
  have hb3 : (name ≠ "" && name.data.all nameCharOk) = true := by
    rw [h4, Bool.and_true]
    exact decide_eq_true h3
  have hb4 : (!(name ≠ "" && name.data.all nameCharOk)) = false := by rw [hb3]; rfl
  rw [hb4, if_neg Bool.false_ne_true]

/-- Claim C3 (amended): for nonempty region/environment/slug drawn from the
name policy character set `[a-z0-9]`, with at least one of them containing a
letter (or the rule requiring the organisational prefix, which supplies
letters), a template-free rule over the three segments whose max_length is
at least the hyphen-joined concatenation (plus the prefix length when
required) makes `build_name` followed by `validate_name` succeed. The
letter condition is forced by the counterexample: digit-only inputs fail
the casing check. -/
theorem C3_build_validate (region environment slug : String) (L : Int) (pre : Bool)
    (hr : region ≠ "") (he : environment ≠ "") (hs : slug ≠ "")
    (hchars : ∀ c ∈ region.data ++ environment.data ++ slug.data,
      (isLowerAZ c || isDigit09 c) = true)
    (hletter : (∃ c ∈ region.data ++ environment.data ++ slug.data, isLowerAZ c = true)
      ∨ pre = true)
    (hlen : (region.length : Int) + environment.length + slug.length + 2
      + (if pre then 7 else 0) ≤ L) :
    ∀ n, build_name region environment slug (segRule L pre) [] = .ok n →
      validate_name n (segRule L pre) = .ok () := by
  intro n hn
  have hb : build_name region environment slug (segRule L pre) []
      = .ok ( _apply_prefix
          (pyLower (dashJoin (List.filter (fun s => s ≠ "") [region, environment, slug])))
          (segRule L pre)) := rfl
  rw [hb] at hn
  injection hn with hn2
  subst hn2
  have hfil : List.filter (fun s => s ≠ "") [region, environment, slug]
      = [region, environment, slug] := by
    simp [List.filter_cons, hr, he, hs]
  rw [hfil]
  have hJ : dashJoin [region, environment, slug]
      = String.mk (region.data ++ '-' :: (environment.data ++ '-' :: slug.data)) := rfl
  rw [hJ]
  have hmemJ : ∀ c ∈ region.data ++ '-' :: (environment.data ++ '-' :: slug.data),
      nameCharOk c = true := by
    intro c hc
    simp only [List.mem_append, List.mem_cons] at hc
    have hof : c ∈ region.data ∨ c ∈ environment.data ∨ c ∈ slug.data →
        nameCharOk c = true := by
      intro hin
      have h2 := hchars c (by simp only [List.mem_append]; tauto)
      simp [nameCharOk, h2]
    rcases hc with h1 | h1 | h1 | h1 | h1
    · exact hof (Or.inl h1)
    · subst h1; decide
    · exact hof (Or.inr (Or.inl h1))
    · subst h1; decide
    · exact hof (Or.inr (Or.inr h1))
  have hpl : pyLower (String.mk (region.data ++ '-' :: (environment.data ++ '-' :: slug.data)))
      = String.mk (region.data ++ '-' :: (environment.data ++ '-' :: slug.data)) := by
    show String.mk ((region.data ++ '-' :: (environment.data ++ '-' :: slug.data)).map pyLowerChar)
      = _
    refine congrArg String.mk ?_
    calc (region.data ++ '-' :: (environment.data ++ '-' :: slug.data)).map pyLowerChar
        = (region.data ++ '-' :: (environment.data ++ '-' :: slug.data)).map id :=
          List.map_congr_left (fun c hc => pyLowerChar_of_nameChar (hmemJ c hc))
      _ = _ := List.map_id _
  rw [hpl]
  have hlen' : (region.length : Int) + environment.length + slug.length + 2 ≤ L ∧
      (pre = true → (region.length : Int) + environment.length + slug.length + 9 ≤ L) := by
    split at hlen
    · next hp => exact ⟨by omega, fun _ => by omega⟩
    · next hp =>
      refine ⟨by omega, fun hpt => absurd hpt hp⟩
  have hJlen : (String.mk (region.data ++ '-' :: (environment.data ++ '-' :: slug.data))).length
      = region.length + environment.length + slug.length + 2 :=
    dashJoin_three_length region environment slug
  have hJne : String.mk (region.data ++ '-' :: (environment.data ++ '-' :: slug.data)) ≠ "" := by
    intro hemp
    have hd := congrArg String.data hemp
    simp at hd
  have hJall : (String.mk (region.data ++ '-' :: (environment.data ++ '-' :: slug.data))).data.all
      nameCharOk = true := List.all_eq_true.mpr hmemJ
  have hJupper : ∀ c ∈ region.data ++ '-' :: (environment.data ++ '-' :: slug.data),
      (!isUpperAZ c) = true := by
    intro c hc
    simp [nameCharOk_not_upper (hmemJ c hc)]
  unfold _apply_prefix
  rcases hcond : (NamingRule.require_sanmar_prefix (segRule L pre)
      && !pyStartsWith (String.mk (region.data ++ '-' :: (environment.data ++ '-' :: slug.data)))
        "sanmar") with _ | _
  · -- no prefix prepended
    rw [if_neg Bool.false_ne_true]
    refine validate_name_ok _ _ ?_ ?_ hJne hJall
    · rw [hJlen, show (segRule L pre).max_length = L from rfl]
      push_cast
      have := hlen'.1
      omega
    · unfold pyIsLower
      rw [Bool.and_eq_true]
      refine ⟨?_, List.all_eq_true.mpr hJupper⟩
      rcases hletter with ⟨c, hc, hcl⟩ | hpt
      · refine List.any_eq_true.mpr ⟨c, ?_, by simp [hcl]⟩
        simp only [List.mem_append, List.mem_cons] at hc ⊢
        tauto
      · -- prefix required but not prepended: the name already starts with "sanmar"
        have h := hcond
        rw [show NamingRule.require_sanmar_prefix (segRule L pre) = pre from rfl, hpt,
          Bool.true_and] at h
        have hsp : pyStartsWith
            (String.mk (region.data ++ '-' :: (environment.data ++ '-' :: slug.data)))
            "sanmar" = true := by
          rcases Bool.eq_false_or_eq_true (pyStartsWith
            (String.mk (region.data ++ '-' :: (environment.data ++ '-' :: slug.data)))
            "sanmar") with h0 | h0
          · exact h0
          · rw [h0] at h; simp at h
        unfold pyStartsWith at hsp
        rw [List.isPrefixOf_iff_prefix] at hsp
        obtain ⟨t, ht⟩ := hsp
        refine List.any_eq_true.mpr ⟨'s', ?_, by decide⟩
        show 's' ∈ (String.mk
          (region.data ++ '-' :: (environment.data ++ '-' :: slug.data))).data
        rw [← ht]
        simp
  · -- "sanmar-" is prepended
    rw [if_pos rfl]
    have hpre : pre = true := by
      have h := hcond
      rw [show NamingRule.require_sanmar_prefix (segRule L pre) = pre from rfl, Bool.and_eq_true] at h
      exact h.1
    have hdata : ("sanmar-"
        ++ String.mk (region.data ++ '-' :: (environment.data ++ '-' :: slug.data))).data
        = "sanmar-".data ++ (region.data ++ '-' :: (environment.data ++ '-' :: slug.data)) :=
      String.data_append _ _
    have hsan : ∀ c ∈ "sanmar-".data, nameCharOk c = true ∧ (!isUpperAZ c) = true := by decide
    refine validate_name_ok _ _ ?_ ?_ ?_ ?_
    · rw [string_length_data, hdata, List.length_append,
        dashJoin_three_length region environment slug,
        show ("sanmar-".data).length = 7 from rfl,
        show (segRule L pre).max_length = L from rfl]
      push_cast
      have := hlen'.2 hpre
      omega
    · unfold pyIsLower
      rw [hdata, Bool.and_eq_true]
      refine ⟨?_, ?_⟩
      · exact List.any_eq_true.mpr ⟨'s', by simp, by decide⟩
      · refine List.all_eq_true.mpr ?_
        intro c hc
        rcases List.mem_append.mp hc with h1 | h1
        · exact (hsan c h1).2
        · exact hJupper c h1
    · intro hemp
      have hd := congrArg String.data hemp
      rw [hdata] at hd
      simp at hd
    · rw [hdata]
      refine List.all_eq_true.mpr ?_
      intro c hc
      rcases List.mem_append.mp hc with h1 | h1
      · exact (hsan c h1).1
      · exact hmemJ c h1

/-- Claim C3 witness: the rule over (wus2, dev, st) with max_length 80
builds "wus2-dev-st" and validation accepts it. -/
theorem C3_build_validate_witness :
    validate_name "wus2-dev-st" (segRule 80 false) = .ok () :=
  C3_build_validate "wus2" "dev" "st" 80 false (by decide) (by decide) (by decide)
    (by decide) (Or.inl (by decide)) (by decide) "wus2-dev-st" rfl

end AzureNaming
